import Mathlib

set_option maxRecDepth 10000

/-!
Verification of the slot-extraction / intent-routing / query-compilation
engine of the symbiote-lite analyst agent.

Strings are modelled as lists of Unicode code points (`List Nat`); all inputs
and program literals in this development are ASCII, so Python's `str.lower`,
`str.strip`, and the fixed regular expressions of the source are modelled at
the code-point level.  The definitions are embedded from the source files
`symbiote_lite/sql/safety.py`, `symbiote_lite/sql/builder.py`,
`symbiote_lite/dates.py`, `symbiote_lite/slots.py`, `symbiote_lite/router.py`.
-/

/-- Strings as lists of code points. -/
abbrev Str := List Nat

/-- Embed a Lean string literal as its list of code points. -/
def lit (s : String) : Str := s.data.map Char.toNat

/-- Python `str.lower` on one ASCII code point. -/
def lowerChar (c : Nat) : Nat := if 65 ≤ c ∧ c ≤ 90 then c + 32 else c

/-- Python `str.lower` over the string. -/
def lower (s : Str) : Str := s.map lowerChar

/-- ASCII whitespace recognised by Python `str.strip()`. -/
def isSpaceC (c : Nat) : Bool :=
  c == 32 || c == 9 || c == 10 || c == 13 || c == 11 || c == 12

/-- Python `str.strip()`: drop whitespace from both ends. -/
def trim (s : Str) : Str :=
  ((s.dropWhile isSpaceC).reverse.dropWhile isSpaceC).reverse

/-- `isPre p s`: `p` is a prefix of `s` (Python `str.startswith`). -/
def isPre : Str → Str → Bool
  | [], _ => true
  | _ :: _, [] => false
  | p :: ps, c :: cs => p == c && isPre ps cs

/-- `isSub p s`: `p` occurs as a contiguous substring of `s` (Python `in`). -/
def isSub : Str → Str → Bool
  | p, [] => isPre p []
  | p, c :: cs => isPre p (c :: cs) || isSub p cs

/-- The mutating keywords listed in `safe_select_only` (safety.py). -/
def dangerous : List Str :=
  [lit "insert", lit "update", lit "delete", lit "drop", lit "alter",
   lit "create", lit "truncate", lit "grant", lit "revoke", lit "exec",
   lit "execute"]

/-- `safe_select_only` from `symbiote_lite/sql/safety.py`.

The source runs `re.search(rf"\\b{kw}\\b", low)`.  Because the pattern is a
raw f-string, the regex source text is backslash-backslash-b on each side,
which the regex engine reads as one literal backslash followed by the letter
b.  The check therefore searches for the literal text backslash-b-keyword-
backslash-b; with no metacharacters left, `re.search` is a plain substring
search, embedded here as `isSub`. -/
def safe_select_only (sql : Str) : Except Str Str :=
  if !(isPre (lit "select") (lower (trim sql))
        || isPre (lit "with") (lower (trim sql))) then
    .error (lit "Only SELECT queries are allowed.")
  else if dangerous.any
      (fun kw => isSub (lit "\\b" ++ kw ++ lit "\\b") (lower (trim sql))) then
    .error (lit "Unsafe SQL detected.")
  else .ok sql

/-! Basic lemmas about the string model. -/

theorem isPre_mem {p s : Str} (h : isPre p s = true) {c : Nat} (hc : c ∈ p) :
    c ∈ s := by
  induction p generalizing s with
  | nil => cases hc
  | cons x xs ih =>
    cases s with
    | nil => simp [isPre] at h
    | cons y ys =>
      simp only [isPre, Bool.and_eq_true, beq_iff_eq] at h
      rcases List.mem_cons.mp hc with rfl | hc2
      · exact h.1 ▸ List.mem_cons_self _ _
      · exact List.mem_cons_of_mem _ (ih h.2 hc2)

theorem isSub_mem {p s : Str} (h : isSub p s = true) {c : Nat} (hc : c ∈ p) :
    c ∈ s := by
  induction s with
  | nil =>
    simp only [isSub] at h
    cases p with
    | nil => cases hc
    | cons x xs => simp [isPre] at h
  | cons y ys ih =>
    simp only [isSub, Bool.or_eq_true] at h
    rcases h with h | h
    · exact isPre_mem h hc
    · exact List.mem_cons_of_mem _ (ih h)

theorem isPre_refl_append (p t : Str) : isPre p (p ++ t) = true := by
  induction p with
  | nil => rfl
  | cons x xs ih => simp [isPre, ih]

theorem isPre_exists {p s : Str} (h : isPre p s = true) : ∃ r, s = p ++ r := by
  induction p generalizing s with
  | nil => exact ⟨s, rfl⟩
  | cons x xs ih =>
    cases s with
    | nil => simp [isPre] at h
    | cons y ys =>
      simp only [isPre, Bool.and_eq_true, beq_iff_eq] at h
      obtain ⟨r, hr⟩ := ih h.2
      exact ⟨r, by rw [hr, h.1]; rfl⟩

/-- A string without backslash characters (code point 92). -/
abbrev noBS (s : Str) : Prop := ∀ c ∈ s, c ≠ 92

theorem noBS_append {a b : Str} (ha : noBS a) (hb : noBS b) : noBS (a ++ b) := by
  intro c hc
  rcases List.mem_append.mp hc with h | h
  · exact ha c h
  · exact hb c h

theorem noBS_lower {s : Str} (h : noBS s) : noBS (lower s) := by
  intro c hc
  rcases List.mem_map.mp hc with ⟨d, hd, rfl⟩
  have hd92 := h d hd
  unfold lowerChar
  split
  · omega
  · exact hd92

/-- Ends in a semicolon (code point 59). -/
def endsSemi (s : Str) : Prop := ∃ t, s = t ++ [59]

theorem trim_head_tail (cs : Str) :
    trim (83 :: (cs ++ [59])) = 83 :: (cs ++ [59]) := by
  unfold trim
  rw [show List.dropWhile isSpaceC (83 :: (cs ++ [59])) = 83 :: (cs ++ [59])
    from rfl]
  have h1 : (83 :: (cs ++ [59])).reverse = 59 :: (cs.reverse ++ [83]) := by
    simp
  rw [h1]
  rw [show List.dropWhile isSpaceC (59 :: (cs.reverse ++ [83]))
      = 59 :: (cs.reverse ++ [83]) from rfl]
  rw [← h1, List.reverse_reverse]

theorem dangerous_check_false {low : Str} (h : noBS low) :
    (dangerous.any (fun kw => isSub (lit "\\b" ++ kw ++ lit "\\b") low))
      = false := by
  by_contra hb
  rw [Bool.not_eq_false, List.any_eq_true] at hb
  obtain ⟨kw, _, hsub⟩ := hb
  have h92 : (92 : Nat) ∈ lit "\\b" ++ kw ++ lit "\\b" := by
    apply List.mem_append.mpr
    left
    apply List.mem_append.mpr
    left
    decide
  exact h 92 (isSub_mem hsub h92) rfl

theorem safe_select_only_ok {s : Str}
    (hpre : isPre (lit "SELECT") s = true)
    (hbs : noBS s) (hend : endsSemi s) : safe_select_only s = .ok s := by
  obtain ⟨r, hr⟩ := isPre_exists hpre
  have hS : lit "SELECT" = [83, 69, 76, 69, 67, 84] := by decide
  obtain ⟨t, ht⟩ := hend
  -- write s as 83 :: (cs ++ [59])
  obtain ⟨cs, hcs⟩ : ∃ cs, s = 83 :: (cs ++ [59]) := by
    cases t with
    | nil =>
      exfalso
      rw [hr, hS] at ht
      simp at ht
    | cons c ct =>
      refine ⟨ct, ?_⟩
      have hc : c = 83 := by
        rw [ht] at hr
        rw [hS] at hr
        simp at hr
        omega
      rw [ht, hc]
      rfl
  have htrim : trim s = s := by rw [hcs]; exact trim_head_tail cs
  have hlow : isPre (lit "select") (lower s) = true := by
    rw [hr, hS]
    show isPre (lit "select")
      (List.map lowerChar ([83, 69, 76, 69, 67, 84] ++ r)) = true
    rw [List.map_append]
    rw [show List.map lowerChar [83, 69, 76, 69, 67, 84]
        = lit "select" from by decide]
    exact isPre_refl_append _ _
  unfold safe_select_only
  rw [htrim, hlow]
  rw [dangerous_check_false (noBS_lower hbs)]
  simp

/-- Claim C1: the spec says any word-boundary occurrence of a mutating keyword
is rejected; the code's pattern `rf"\\b{kw}\\b"` searches for a literal
backslash-b instead, so `select 1; drop table taxi_trips` is accepted
unchanged even though it contains `drop` as a word-delimited word. -/
theorem C1_embedded_drop_not_rejected :
    safe_select_only (lit "select 1; drop table taxi_trips")
      = .ok (lit "select 1; drop table taxi_trips")
    ∧ isSub (lit " drop ") (lit "select 1; drop table taxi_trips") = true := by
  constructor
  · rfl
  · decide

/-- Claim C2: `safe_select_only` rejects every statement whose trimmed,
lower-cased text does not begin with `select` or `with`;
`DROP TABLE taxi_trips` is rejected and `SELECT * FROM taxi_trips` is
returned unchanged. -/
theorem C2_select_or_with_only (s : Str)
    (h1 : isPre (lit "select") (lower (trim s)) = false)
    (h2 : isPre (lit "with") (lower (trim s)) = false) :
    safe_select_only s = .error (lit "Only SELECT queries are allowed.")
    ∧ safe_select_only (lit "DROP TABLE taxi_trips")
        = .error (lit "Only SELECT queries are allowed.")
    ∧ safe_select_only (lit "SELECT * FROM taxi_trips")
        = .ok (lit "SELECT * FROM taxi_trips") := by
  refine ⟨?_, by rfl, by rfl⟩
  unfold safe_select_only
  rw [h1, h2]
  simp

/-- Witness for C2 at the concrete rejected statement. -/
theorem C2_select_or_with_only_witness :
    safe_select_only (lit "DROP TABLE taxi_trips")
      = .error (lit "Only SELECT queries are allowed.")
    ∧ safe_select_only (lit "DROP TABLE taxi_trips")
        = .error (lit "Only SELECT queries are allowed.")
    ∧ safe_select_only (lit "SELECT * FROM taxi_trips")
        = .ok (lit "SELECT * FROM taxi_trips") :=
  C2_select_or_with_only (lit "DROP TABLE taxi_trips") (by decide) (by decide)

/-! Decimal formatting (Python `str` of a nonnegative int, and `strftime`
zero-padding), and the calendar model backing `datetime`. -/

/-- Decimal digits of `n`, most significant first; `fuel` bounds recursion
depth and is always called with `fuel > n`. -/
def natDigitsAux : Nat → Nat → Str
  | 0, _ => []
  | fuel + 1, n => if n < 10 then [48 + n] else natDigitsAux fuel (n / 10) ++ [48 + n % 10]

/-- Decimal representation of `n` (Python `str(n)` / `f"{n}"`). -/
def natDigits (n : Nat) : Str := natDigitsAux (n + 1) n

theorem natDigitsAux_digits (fuel : Nat) :
    ∀ n, ∀ c ∈ natDigitsAux fuel n, 48 ≤ c ∧ c ≤ 57 := by
  induction fuel with
  | zero => intro n c hc; simp [natDigitsAux] at hc
  | succ f ih =>
    intro n c hc
    simp only [natDigitsAux] at hc
    split at hc
    · rename_i h; simp at hc; omega
    · rcases List.mem_append.mp hc with h2 | h2
      · exact ih _ _ h2
      · have hm : n % 10 < 10 := Nat.mod_lt n (by omega)
        simp at h2
        omega

theorem natDigits_digits (n : Nat) : ∀ c ∈ natDigits n, 48 ≤ c ∧ c ≤ 57 :=
  natDigitsAux_digits (n + 1) n

theorem noBS_natDigits (n : Nat) : noBS (natDigits n) := by
  intro c hc
  have := natDigits_digits n c hc
  omega

/-- `strftime` zero-padding to width `w`. -/
def pad (w n : Nat) : Str :=
  List.replicate (w - (natDigits n).length) 48 ++ natDigits n

theorem noBS_pad (w n : Nat) : noBS (pad w n) := by
  intro c hc
  rcases List.mem_append.mp hc with h | h
  · have := List.eq_of_mem_replicate h; omega
  · exact noBS_natDigits n c h

/-- A calendar date (the `datetime` values flowing through the pipeline;
`datetime` guarantees `validDatetime` below for every constructed value). -/
structure Date where
  y : Nat
  m : Nat
  d : Nat
deriving DecidableEq, Repr

/-- Gregorian leap year (as used by Python `datetime`). -/
def isLeap (y : Nat) : Bool := (y % 4 == 0 && !(y % 100 == 0)) || y % 400 == 0

/-- Days in a month (as used by Python `datetime`). -/
def daysInMonth (y m : Nat) : Nat :=
  if m == 2 then (if isLeap y then 29 else 28)
  else if m == 4 || m == 6 || m == 9 || m == 11 then 30
  else 31

/-- Whether `datetime(y, m, d)` constructs without raising `ValueError`. -/
def validDatetime (y m d : Nat) : Bool :=
  decide (1 ≤ y) && decide (y ≤ 9999) && decide (1 ≤ m) && decide (m ≤ 12)
    && decide (1 ≤ d) && decide (d ≤ daysInMonth y m)

/-- A `Date` value that `datetime` could hold. -/
abbrev ValidDate (dt : Date) : Prop := validDatetime dt.y dt.m dt.d = true

/-- Chronological order key; on valid dates it agrees with `datetime`
comparison (year, then month, then day). -/
def ordD (dt : Date) : Nat := (dt.y * 100 + dt.m) * 100 + dt.d

/-- `strftime("%Y-%m-%d")` (`_date_to_str` in builder.py on `datetime`
input, and `validate_dates_state` in slots.py). -/
def dateStr (dt : Date) : Str :=
  pad 4 dt.y ++ ([45] ++ (pad 2 dt.m ++ ([45] ++ pad 2 dt.d)))

theorem noBS_dateStr (dt : Date) : noBS (dateStr dt) := by
  refine noBS_append (noBS_pad 4 dt.y) (noBS_append (by decide) ?_)
  exact noBS_append (noBS_pad 2 dt.m) (noBS_append (by decide) (noBS_pad 2 dt.d))

/-! The query builder, `symbiote_lite/sql/builder.py`. -/

/-- `time_bucket` from builder.py. -/
def time_bucket (granularity : Str) : Str × Str :=
  if granularity = lit "daily" then (lit "DATE(pickup_datetime)", lit "day")
  else if granularity = lit "weekly" then
    (lit "STRFTIME('%Y-%W', pickup_datetime)", lit "week")
  else (lit "STRFTIME('%Y-%m', pickup_datetime)", lit "month")

theorem noBS_time_bucket_fst (g : Str) : noBS (time_bucket g).1 := by
  unfold time_bucket
  split
  · decide
  split
  · decide
  · decide

theorem noBS_time_bucket_snd (g : Str) : noBS (time_bucket g).2 := by
  unfold time_bucket
  split
  · decide
  split
  · decide
  · decide

/-- The resolved state fields read by `build_sql` (`state` dict entries). -/
structure BState where
  start_date : Date
  end_date : Date
  granularity : Str
  metric : Str
  limit : Option Int
  postprocess : Option (Str × Str)

/-- The local `agg` of `build_sql`: `"SUM" if metric == "total" else "AVG"`. -/
def agg_str (metric : Str) : Str :=
  if metric = lit "total" then lit "SUM" else lit "AVG"

theorem noBS_agg_str (m : Str) : noBS (agg_str m) := by
  unfold agg_str
  split
  · decide
  · decide

/-- The local `col` of `build_sql`: fare/tip column choice with the
`best_day`/`min_total_amount` post-processing override. -/
def col_str (intent : Str) (pp : Option (Str × Str)) : Str :=
  if intent = lit "fare_trend" then
    match pp with
    | some p =>
      if p.1 = lit "best_day" ∧ p.2 = lit "min_total_amount" then
        lit "total_amount"
      else lit "fare_amount"
    | none => lit "fare_amount"
  else lit "tip_amount"

theorem noBS_col_str (i : Str) (pp : Option (Str × Str)) : noBS (col_str i pp) := by
  unfold col_str
  split
  · split
    · split
      · decide
      · decide
    · decide
  · decide

/-- The local `limit` of `build_sql`:
`int(state.get("limit") or 100)` clamped by `max(1, min(limit, 1000))`
(Python `or` treats 0 as falsy). -/
def limit_clamped (l : Option Int) : Int :=
  max 1 (min (match l with | none => 100 | some v => if v = 0 then 100 else v) 1000)

/-- The `trip_frequency` template of `build_sql`. -/
def sql_trip_frequency (st : BState) : Str :=
  lit "SELECT " ++ ((time_bucket st.granularity).1 ++ (lit " AS "
    ++ ((time_bucket st.granularity).2
    ++ (lit ", COUNT(*) AS trips\nFROM taxi_trips\nWHERE pickup_datetime >= '"
    ++ (dateStr st.start_date ++ (lit "'\n  AND pickup_datetime < '"
    ++ (dateStr st.end_date ++ lit "'\nGROUP BY 1\nORDER BY 1;")))))))

/-- The `sample_rows` template of `build_sql`. -/
def sql_sample_rows (st : BState) : Str :=
  lit "SELECT " ++ (lit "pickup_datetime, dropoff_datetime, vendor_id, fare_amount, tip_amount, total_amount\nFROM taxi_trips\nWHERE pickup_datetime >= '"
    ++ (dateStr st.start_date ++ (lit "'\n  AND pickup_datetime < '"
    ++ (dateStr st.end_date ++ (lit "'\nORDER BY pickup_datetime\nLIMIT "
    ++ (natDigits (limit_clamped st.limit).toNat ++ lit ";"))))))

/-- The `vendor_inactivity` template of `build_sql`. -/
def sql_vendor_inactivity (st : BState) : Str :=
  lit "SELECT " ++ (lit "vendor_id, COUNT(*) AS trips\nFROM taxi_trips\nWHERE pickup_datetime >= '"
    ++ (dateStr st.start_date ++ (lit "'\n  AND pickup_datetime < '"
    ++ (dateStr st.end_date ++ lit "'\nGROUP BY vendor_id\nORDER BY trips ASC;"))))

/-- The fall-through fare/tip trend template of `build_sql`. -/
def sql_trend (st : BState) (intent : Str) : Str :=
  lit "SELECT " ++ ((time_bucket st.granularity).1 ++ (lit " AS "
    ++ ((time_bucket st.granularity).2 ++ (lit ", "
    ++ (agg_str st.metric ++ (lit "("
    ++ (col_str intent st.postprocess
    ++ (lit ") AS value\nFROM taxi_trips\nWHERE pickup_datetime >= '"
    ++ (dateStr st.start_date ++ (lit "'\n  AND pickup_datetime < '"
    ++ (dateStr st.end_date ++ lit "'\nGROUP BY 1\nORDER BY 1;")))))))))))

/-- `build_sql` from builder.py (f-string templates written out as the
explicit concatenations above). -/
def build_sql (st : BState) (intent : Str) : Str :=
  if intent = lit "trip_frequency" then sql_trip_frequency st
  else if intent = lit "sample_rows" then sql_sample_rows st
  else if intent = lit "vendor_inactivity" then sql_vendor_inactivity st
  else sql_trend st intent

theorem isPre_append_left {p a : Str} (b : Str) (h : isPre p a = true) :
    isPre p (a ++ b) = true := by
  obtain ⟨r, rfl⟩ := isPre_exists h
  rw [List.append_assoc]
  exact isPre_refl_append p (r ++ b)

theorem endsSemi_append {b : Str} (a : Str) (h : endsSemi b) :
    endsSemi (a ++ b) := by
  obtain ⟨t, rfl⟩ := h
  exact ⟨a ++ t, by rw [List.append_assoc]⟩

theorem endsSemi_of_dropLast (s : Str) (h : s = s.dropLast ++ [59]) :
    endsSemi s := ⟨s.dropLast, h⟩

theorem build_template_ok {s rest : Str} (hform : s = lit "SELECT " ++ rest)
    (hbs : noBS rest) (hend : endsSemi rest) :
    safe_select_only s = .ok s
    ∧ (isPre (lit "SELECT") s = true ∨ isPre (lit "WITH") s = true) := by
  subst hform
  have hpre : isPre (lit "SELECT") (lit "SELECT " ++ rest) = true :=
    isPre_append_left rest (by decide)
  refine ⟨safe_select_only_ok hpre (noBS_append (by decide) hbs)
    (endsSemi_append _ hend), Or.inl hpre⟩

theorem sql_trip_frequency_ok (st : BState) :
    safe_select_only (sql_trip_frequency st) = .ok (sql_trip_frequency st)
    ∧ (isPre (lit "SELECT") (sql_trip_frequency st) = true
        ∨ isPre (lit "WITH") (sql_trip_frequency st) = true) := by
  refine build_template_ok rfl ?_ ?_
  · refine noBS_append (noBS_time_bucket_fst _) (noBS_append (by decide) ?_)
    refine noBS_append (noBS_time_bucket_snd _) (noBS_append (by decide) ?_)
    refine noBS_append (noBS_dateStr _) (noBS_append (by decide) ?_)
    exact noBS_append (noBS_dateStr _) (by decide)
  · repeat apply endsSemi_append
    exact endsSemi_of_dropLast _ (by decide)

theorem sql_sample_rows_ok (st : BState) :
    safe_select_only (sql_sample_rows st) = .ok (sql_sample_rows st)
    ∧ (isPre (lit "SELECT") (sql_sample_rows st) = true
        ∨ isPre (lit "WITH") (sql_sample_rows st) = true) := by
  refine build_template_ok rfl ?_ ?_
  · refine noBS_append (by decide) (noBS_append (noBS_dateStr _) ?_)
    refine noBS_append (by decide) (noBS_append (noBS_dateStr _) ?_)
    exact noBS_append (by decide) (noBS_append (noBS_natDigits _) (by decide))
  · repeat apply endsSemi_append
    exact endsSemi_of_dropLast _ (by decide)

theorem sql_vendor_inactivity_ok (st : BState) :
    safe_select_only (sql_vendor_inactivity st) = .ok (sql_vendor_inactivity st)
    ∧ (isPre (lit "SELECT") (sql_vendor_inactivity st) = true
        ∨ isPre (lit "WITH") (sql_vendor_inactivity st) = true) := by
  refine build_template_ok rfl ?_ ?_
  · refine noBS_append (by decide) (noBS_append (noBS_dateStr _) ?_)
    exact noBS_append (by decide) (noBS_append (noBS_dateStr _) (by decide))
  · repeat apply endsSemi_append
    exact endsSemi_of_dropLast _ (by decide)

theorem sql_trend_ok (st : BState) (intent : Str) :
    safe_select_only (sql_trend st intent) = .ok (sql_trend st intent)
    ∧ (isPre (lit "SELECT") (sql_trend st intent) = true
        ∨ isPre (lit "WITH") (sql_trend st intent) = true) := by
  refine build_template_ok rfl ?_ ?_
  · refine noBS_append (noBS_time_bucket_fst _) (noBS_append (by decide) ?_)
    refine noBS_append (noBS_time_bucket_snd _) (noBS_append (by decide) ?_)
    refine noBS_append (noBS_agg_str _) (noBS_append (by decide) ?_)
    refine noBS_append (noBS_col_str _ _) (noBS_append (by decide) ?_)
    refine noBS_append (noBS_dateStr _) (noBS_append (by decide) ?_)
    exact noBS_append (noBS_dateStr _) (by decide)
  · repeat apply endsSemi_append
    exact endsSemi_of_dropLast _ (by decide)

/-- Claim C3: for every fully resolved state and every supported intent, the
SQL built by `build_sql` begins with SELECT (or WITH) and is accepted
unchanged by `safe_select_only`. -/
theorem C3_build_roundtrip (st : BState) (intent : Str)
    (hi : intent = lit "trip_frequency" ∨ intent = lit "vendor_inactivity"
      ∨ intent = lit "fare_trend" ∨ intent = lit "tip_trend"
      ∨ intent = lit "sample_rows")
    (hsd : ValidDate st.start_date) (hed : ValidDate st.end_date)
    (hg : st.granularity = lit "daily" ∨ st.granularity = lit "weekly"
      ∨ st.granularity = lit "monthly")
    (hm : st.metric = lit "avg" ∨ st.metric = lit "total") :
    safe_select_only (build_sql st intent) = .ok (build_sql st intent)
    ∧ (isPre (lit "SELECT") (build_sql st intent) = true
        ∨ isPre (lit "WITH") (build_sql st intent) = true) := by
  rcases hi with h | h | h | h | h <;> subst h
  · have hb : build_sql st (lit "trip_frequency") = sql_trip_frequency st := by
      unfold build_sql
      rw [if_pos rfl]
    rw [hb]
    exact sql_trip_frequency_ok st
  · have hb : build_sql st (lit "vendor_inactivity")
        = sql_vendor_inactivity st := by
      unfold build_sql
      rw [if_neg (by decide), if_neg (by decide), if_pos rfl]
    rw [hb]
    exact sql_vendor_inactivity_ok st
  · have hb : build_sql st (lit "fare_trend")
        = sql_trend st (lit "fare_trend") := by
      unfold build_sql
      rw [if_neg (by decide), if_neg (by decide), if_neg (by decide)]
    rw [hb]
    exact sql_trend_ok st _
  · have hb : build_sql st (lit "tip_trend")
        = sql_trend st (lit "tip_trend") := by
      unfold build_sql
      rw [if_neg (by decide), if_neg (by decide), if_neg (by decide)]
    rw [hb]
    exact sql_trend_ok st _
  · have hb : build_sql st (lit "sample_rows") = sql_sample_rows st := by
      unfold build_sql
      rw [if_neg (by decide), if_pos rfl]
    rw [hb]
    exact sql_sample_rows_ok st

/-- Witness for C3 at a concrete resolved state and intent. -/
theorem C3_build_roundtrip_witness :
    safe_select_only (build_sql
        ⟨⟨2022, 1, 1⟩, ⟨2022, 2, 1⟩, lit "weekly", lit "avg", none, none⟩
        (lit "trip_frequency"))
      = .ok (build_sql
        ⟨⟨2022, 1, 1⟩, ⟨2022, 2, 1⟩, lit "weekly", lit "avg", none, none⟩
        (lit "trip_frequency"))
    ∧ (isPre (lit "SELECT") (build_sql
        ⟨⟨2022, 1, 1⟩, ⟨2022, 2, 1⟩, lit "weekly", lit "avg", none, none⟩
        (lit "trip_frequency")) = true
      ∨ isPre (lit "WITH") (build_sql
        ⟨⟨2022, 1, 1⟩, ⟨2022, 2, 1⟩, lit "weekly", lit "avg", none, none⟩
        (lit "trip_frequency")) = true) :=
  C3_build_roundtrip _ _ (Or.inl rfl) (by decide) (by decide)
    (Or.inr (Or.inl rfl)) (Or.inl rfl)

/-! The date extractor, `symbiote_lite/dates.py`.  The fixed regular
expressions are embedded as explicit scanners over code points; `prev`
carries the character before the current position so that the word
boundary `\b` can be decided locally. -/

/-- Regex word character `\w` (ASCII: letters, digits, underscore). -/
def isWordC (c : Nat) : Bool :=
  (decide (48 ≤ c) && decide (c ≤ 57)) || (decide (65 ≤ c) && decide (c ≤ 90))
    || (decide (97 ≤ c) && decide (c ≤ 122)) || c == 95

/-- Regex `\d` (ASCII digit). -/
def isDigitC (c : Nat) : Bool := decide (48 ≤ c) && decide (c ≤ 57)

/-- The separator class of `ISO_DATE_RE`: dash or slash. -/
def isSepC (c : Nat) : Bool := c == 45 || c == 47

/-- ASCII letter (the class `[a-zA-Z]`). -/
def isAlphaC (c : Nat) : Bool :=
  (decide (65 ≤ c) && decide (c ≤ 90)) || (decide (97 ≤ c) && decide (c ≤ 122))

/-- `\b` before a match whose first character is a word character:
the previous character (if any) must not be a word character. -/
def bndB : Option Nat → Bool
  | none => true
  | some c => !isWordC c

/-- `\b` after a match whose last character is a word character:
the next character (if any) must not be a word character. -/
def bndA : Str → Bool
  | [] => true
  | c :: _ => !isWordC c

/-- The character preceding the continuation after skipping `l`. -/
def lastPrev (prev : Option Nat) (l : Str) : Option Nat :=
  match l.getLast? with
  | some c => some c
  | none => prev

/-- One attempted match of `ISO_DATE_RE`, regex
four digits, dash-or-slash, two digits, dash-or-slash, two digits between
word boundaries, at the current position; returns the
three captured groups. -/
def tryIso (prev : Option Nat) (l : Str) : Option (Str × Str × Str) :=
  match l with
  | y1 :: y2 :: y3 :: y4 :: s1 :: m1 :: m2 :: s2 :: d1 :: d2 :: rest =>
    if bndB prev && isDigitC y1 && isDigitC y2 && isDigitC y3 && isDigitC y4
        && isSepC s1 && isDigitC m1 && isDigitC m2 && isSepC s2
        && isDigitC d1 && isDigitC d2 && bndA rest
    then some ([y1, y2, y3, y4], [m1, m2], [d1, d2]) else none
  | _ => none

/-- `re.findall` scanning for `ISO_DATE_RE`: advance one character on
failure, continue after the ten consumed characters on success.  `fuel`
only bounds recursion and starts at the text length, which suffices. -/
def scanIsoAux : Nat → Option Nat → Str → List (Str × Str × Str)
  | 0, _, _ => []
  | _ + 1, _, [] => []
  | fuel + 1, prev, c :: cs =>
    match tryIso prev (c :: cs) with
    | some g => g :: scanIsoAux fuel (some (g.2.2.getLastD 0)) ((c :: cs).drop 10)
    | none => scanIsoAux fuel (some c) cs

/-- `ISO_DATE_RE.findall(text)`. -/
def scanIso (text : Str) : List (Str × Str × Str) := scanIsoAux text.length none text

/-- One attempted match of the swap-notice regex `\b2022-\d{2}-\d{2}\b`
(slots.py); returns the matched literal. -/
def try2022 (prev : Option Nat) (l : Str) : Option Str :=
  match l with
  | c1 :: c2 :: c3 :: c4 :: s1 :: m1 :: m2 :: s2 :: d1 :: d2 :: rest =>
    if bndB prev && c1 == 50 && c2 == 48 && c3 == 50 && c4 == 50 && s1 == 45
        && isDigitC m1 && isDigitC m2 && s2 == 45 && isDigitC d1 && isDigitC d2
        && bndA rest
    then some [c1, c2, c3, c4, s1, m1, m2, s2, d1, d2] else none
  | _ => none

/-- `re.findall` scanning for `\b2022-\d{2}-\d{2}\b`. -/
def scan2022Aux : Nat → Option Nat → Str → List Str
  | 0, _, _ => []
  | _ + 1, _, [] => []
  | fuel + 1, prev, c :: cs =>
    match try2022 prev (c :: cs) with
    | some w => w :: scan2022Aux fuel (some (w.getLastD 0)) ((c :: cs).drop 10)
    | none => scan2022Aux fuel (some c) cs

/-- `re.findall(r"\b2022-\d{2}-\d{2}\b", text)`. -/
def scan2022 (text : Str) : List Str := scan2022Aux text.length none text

/-- One attempted match of `\b20\d{2}\b`. -/
def tryYearAny (prev : Option Nat) (l : Str) : Bool :=
  match l with
  | c1 :: c2 :: c3 :: c4 :: rest =>
    bndB prev && c1 == 50 && c2 == 48 && isDigitC c3 && isDigitC c4 && bndA rest
  | _ => false

def has20xxAux : Option Nat → Str → Bool
  | _, [] => false
  | prev, c :: cs => tryYearAny prev (c :: cs) || has20xxAux (some c) cs

/-- `re.search(r"\b20\d{2}\b", t)` as a Boolean (dates.py guards). -/
def has20xx (t : Str) : Bool := has20xxAux none t

/-- One attempted match of `\b20(1\d|2[013-9])\b`: the years 2010-2029
except 2022.  The router writes the class as `[0134-9]` and the season rule
as `[013-9]`; both denote the digits other than 2. -/
def tryYearNot2022 (prev : Option Nat) (l : Str) : Bool :=
  match l with
  | c1 :: c2 :: c3 :: c4 :: rest =>
    bndB prev && c1 == 50 && c2 == 48
      && ((c3 == 49 && isDigitC c4) || (c3 == 50 && isDigitC c4 && !(c4 == 50)))
      && bndA rest
  | _ => false

def hasYearNot2022Aux : Option Nat → Str → Bool
  | _, [] => false
  | prev, c :: cs => tryYearNot2022 prev (c :: cs) || hasYearNot2022Aux (some c) cs

/-- `re.search(r"\b20(1\d|2[013-9])\b", t)` as a Boolean. -/
def hasYearNot2022 (t : Str) : Bool := hasYearNot2022Aux none t

/-- One attempted match of `Q_RE`, regex `\bq([1-4])\b` on lowered text. -/
def tryQ (prev : Option Nat) (l : Str) : Option Nat :=
  match l with
  | c1 :: c2 :: rest =>
    if bndB prev && c1 == 113 && decide (49 ≤ c2) && decide (c2 ≤ 52) && bndA rest
    then some (c2 - 48) else none
  | _ => none

def scanQAux : Option Nat → Str → Option Nat
  | _, [] => none
  | prev, c :: cs =>
    match tryQ prev (c :: cs) with
    | some q => some q
    | none => scanQAux (some c) cs

/-- `Q_RE.search(t)`: the first quarter number found, if any. -/
def scanQ (t : Str) : Option Nat := scanQAux none t

/-- Python `int` on a string of ASCII digits. -/
def toNum (l : Str) : Nat := l.foldl (fun a c => a * 10 + (c - 48)) 0

/-- The ISO-match loop body of `extract_dates`: keep matches that parse as
valid `datetime`s in the dataset year (or exactly 2023-01-01, the allowed
exclusive end); collect calendar-invalid literals as `y-m-d`; silently skip
valid dates of any other year. -/
def processIso : List (Str × Str × Str) → List Date × List Str
  | [] => ([], [])
  | (gy, gm, gd) :: rest =>
    if validDatetime (toNum gy) (toNum gm) (toNum gd) then
      if toNum gy == 2022 then
        (⟨toNum gy, toNum gm, toNum gd⟩ :: (processIso rest).1, (processIso rest).2)
      else if toNum gy == 2023 && toNum gm == 1 && toNum gd == 1 then
        (⟨toNum gy, toNum gm, toNum gd⟩ :: (processIso rest).1, (processIso rest).2)
      else processIso rest
    else ((processIso rest).1, (gy ++ ([45] ++ (gm ++ ([45] ++ gd)))) :: (processIso rest).2)

/-- Stable insertion into an ascending list (`Python sorted` is stable). -/
def insertD (x : Date) : List Date → List Date
  | [] => [x]
  | y :: l => if ordD x < ordD y then x :: y :: l else y :: insertD x l

/-- Python `sorted` on `datetime` values. -/
def sortD (l : List Date) : List Date := l.foldr insertD []

/-- Maximal runs of word characters; a run is collected in order. -/
def wordRunsAux : Str → Str → List Str
  | acc, [] => if acc = [] then [] else [acc.reverse]
  | acc, c :: cs =>
    if isWordC c then wordRunsAux (c :: acc) cs
    else if acc = [] then wordRunsAux [] cs
    else acc.reverse :: wordRunsAux [] cs

def wordRuns (t : Str) : List Str := wordRunsAux [] t

/-- `MONTH_MAP` from dates.py, in dict insertion order. -/
def MONTH_MAP : List (Str × Nat) :=
  [(lit "jan", 1), (lit "january", 1), (lit "janurary", 1), (lit "janury", 1),
   (lit "januarry", 1), (lit "janaury", 1),
   (lit "feb", 2), (lit "february", 2), (lit "febuary", 2), (lit "feburary", 2),
   (lit "februrary", 2), (lit "febrary", 2),
   (lit "mar", 3), (lit "march", 3), (lit "mach", 3), (lit "mrch", 3),
   (lit "apr", 4), (lit "april", 4), (lit "apirl", 4), (lit "apil", 4),
   (lit "may", 5),
   (lit "jun", 6), (lit "june", 6), (lit "juen", 6),
   (lit "jul", 7), (lit "july", 7), (lit "jully", 7),
   (lit "aug", 8), (lit "august", 8), (lit "agust", 8), (lit "augst", 8),
   (lit "sep", 9), (lit "sept", 9), (lit "september", 9), (lit "septmber", 9),
   (lit "setember", 9),
   (lit "oct", 10), (lit "october", 10), (lit "octobor", 10), (lit "ocotber", 10),
   (lit "nov", 11), (lit "november", 11), (lit "novemeber", 11), (lit "novmber", 11),
   (lit "dec", 12), (lit "december", 12), (lit "decmber", 12), (lit "dicember", 12)]

/-- Dict membership lookup `w in MONTH_MAP`. -/
def monthLookup (w : Str) : Option Nat :=
  (MONTH_MAP.find? (fun kv => kv.1 == w)).map (fun kv => kv.2)

/-- `_get_month_num` from dates.py: exact lexicon match, else 3-letter
prefix lookup, else first lexicon entry sharing the first three letters. -/
def get_month_num (w : Str) : Nat :=
  match monthLookup w with
  | some v => v
  | none =>
    match (if 3 ≤ w.length then monthLookup (w.take 3) else none) with
    | some v => v
    | none =>
      match MONTH_MAP.find? (fun kv =>
          decide (3 ≤ kv.1.length) && decide (3 ≤ w.length)
            && kv.1.take 3 == w.take 3) with
      | some kv => kv.2
      | none => 0

/-- `find_months_in_text` from dates.py: words are the
`\b[a-zA-Z]{3,12}\b` matches of the lowered text (maximal word-character
runs that are purely alphabetic, 3 to 12 letters long); distinct month
numbers are collected in first-seen order. -/
def find_months_in_text (text : Str) : List Nat :=
  ((wordRuns (lower text)).filter (fun r =>
      r.all isAlphaC && decide (3 ≤ r.length) && decide (r.length ≤ 12))).foldl
    (fun acc w =>
      if 0 < get_month_num w ∧ ¬ (get_month_num w ∈ acc) then
        acc ++ [get_month_num w]
      else acc) []

def whole_year_phrases : List Str :=
  [lit "whole year", lit "all of 2022", lit "entire year", lit "full year",
   lit "all year", lit "the year", lit "year 2022"]

def year_breakdown_words : List Str :=
  [lit "monthly", lit "month", lit "breakdown", lit "trends", lit "by"]

/-- `SEASON_MAP` from dates.py, in dict insertion order. -/
def SEASON_MAP : List (Str × Nat × Nat) :=
  [(lit "spring", 3, 6), (lit "summer", 6, 9), (lit "fall", 9, 12),
   (lit "autumn", 9, 12), (lit "winter", 1, 3)]

def fullYearPair : List Date := [⟨2022, 1, 1⟩, ⟨2023, 1, 1⟩]

/-- Month-name rule of `extract_dates` (the last textual rule). -/
def rules_months (t : Str) : List Date × List Str :=
  if find_months_in_text t ≠ []
      ∧ (isSub (lit "2022") t = true ∨ has20xx t = false) then
    match find_months_in_text t with
    | [m] =>
      ([⟨2022, m, 1⟩, if m < 12 then ⟨2022, m + 1, 1⟩ else ⟨2023, 1, 1⟩], [])
    | m :: ms =>
      ([⟨2022, ms.foldl Nat.min m, 1⟩,
        if ms.foldl Nat.max m < 12 then ⟨2022, ms.foldl Nat.max m + 1, 1⟩
        else ⟨2023, 1, 1⟩], [])
    | [] => ([], [])
  else ([], [])

/-- Season rule of `extract_dates`, falling through to the month rule. -/
def rules_seasons (t : Str) : List Date × List Str :=
  match SEASON_MAP.find? (fun sv => isSub sv.1 t) with
  | some sv =>
    if hasYearNot2022 t then ([], [])
    else ([⟨2022, sv.2.1, 1⟩, ⟨2022, sv.2.2, 1⟩], [])
  | none => rules_months t

/-- The body of the quarter rule once `Q_RE.search` has found quarter `q`:
`start_month = (q-1)*3+1`, `end_month = start_month+3`, with the year
rollover, guarded by `"2022" in t or not re.search(20xx)`. -/
def quarter_hit (t : Str) (q : Nat) : List Date × List Str :=
  if isSub (lit "2022") t || !(has20xx t) then
    ([⟨2022, (q - 1) * 3 + 1, 1⟩,
      if (q - 1) * 3 + 1 + 3 ≤ 12 then ⟨2022, (q - 1) * 3 + 1 + 3, 1⟩
      else ⟨2023, 1, 1⟩], [])
  else rules_seasons t

/-- Quarter rule of `extract_dates`, falling through to the season rule. -/
def rules_quarter (t : Str) : List Date × List Str :=
  match scanQ t with
  | some q => quarter_hit t q
  | none => rules_seasons t

/-- Year-with-breakdown rule of `extract_dates`, falling through to the
quarter rule. -/
def rules_year_breakdown (t : Str) : List Date × List Str :=
  if isSub (lit "year") t = true
      ∧ year_breakdown_words.any (fun w => isSub w t) = true then
    if isSub (lit "2022") t || !(has20xx t) then (fullYearPair, [])
    else rules_quarter t
  else rules_quarter t

/-- The textual rules of `extract_dates` (everything after the ISO pass),
starting with the whole-year phrases. -/
def textual_rules (text : Str) : List Date × List Str :=
  if whole_year_phrases.any (fun p => isSub p (lower text)) then (fullYearPair, [])
  else rules_year_breakdown (lower text)

/-- `extract_dates` from dates.py: if any ISO-like token was found and the
ISO pass produced a date or an invalid literal, return those (dates
sorted); otherwise fall through to the textual rules. -/
def extract_dates (text : Str) : List Date × List Str :=
  if scanIso text ≠ []
      ∧ ((processIso (scanIso text)).1 ≠ [] ∨ (processIso (scanIso text)).2 ≠ []) then
    (sortD (processIso (scanIso text)).1, (processIso (scanIso text)).2)
  else textual_rules text

/-! The heuristic router, `symbiote_lite/router.py`. -/

/-- The router's result dict `{"intent": ..., "dataset_match": ...}`. -/
structure Route where
  intent : Str
  dataset_match : Bool
deriving DecidableEq, Repr

/-- `heuristic_route` from router.py. -/
def heuristic_route (user_input : Str) : Route :=
  if [lit "churn", lit "customer", lit "cohort", lit "retention",
      lit "subscription"].any (fun k => isSub k (lower user_input)) then
    ⟨lit "unknown", false⟩
  else if hasYearNot2022 (lower user_input)
      && !(isSub (lit "2022") (lower user_input)) then
    ⟨lit "unknown", false⟩
  else if [lit "help", lit "what can i ask", lit "what can i do",
      lit "who are you"].any (fun k => isSub k (lower user_input)) then
    ⟨lit "unknown", true⟩
  else if ([lit "sample", lit "show me a sample", lit "limit"].any
        (fun k => isSub k (lower user_input)))
      && ([lit "row", lit "rows", lit "records"].any
        (fun k => isSub k (lower user_input))) then
    ⟨lit "sample_rows", true⟩
  else if isSub (lit "vendor") (lower user_input) then
    ⟨lit "vendor_inactivity", true⟩
  else if isSub (lit "tip") (lower user_input)
      && !(isSub (lit "strip") (lower user_input)) then
    ⟨lit "tip_trend", true⟩
  else if [lit "fare", lit "price", lit "expensive", lit "money",
      lit "revenue", lit "cost"].any (fun k => isSub k (lower user_input)) then
    ⟨lit "fare_trend", true⟩
  else if [lit "trip", lit "trips", lit "ride", lit "rides", lit "busy",
      lit "busier", lit "frequency", lit "activity", lit "volume"].any
        (fun k => isSub k (lower user_input)) then
    ⟨lit "trip_frequency", true⟩
  else ⟨lit "unknown", true⟩

/-- Claim C7: when the ISO pass finds only calendar-invalid literals and no
valid dates, `extract_dates` returns an empty date list together with the
offending literals; in particular on `2022-13-45`. -/
theorem C7_invalid_literals_returned (text : Str)
    (h1 : scanIso text ≠ [])
    (h2 : (processIso (scanIso text)).1 = [])
    (h3 : (processIso (scanIso text)).2 ≠ []) :
    extract_dates text = ([], (processIso (scanIso text)).2)
    ∧ extract_dates (lit "2022-13-45") = ([], [lit "2022-13-45"]) := by
  refine ⟨?_, by rfl⟩
  unfold extract_dates
  rw [if_pos ⟨h1, Or.inr h3⟩, h2]
  rfl

/-- Witness for C7 at the input `2022-13-45`. -/
theorem C7_invalid_literals_returned_witness :
    extract_dates (lit "2022-13-45")
      = ([], (processIso (scanIso (lit "2022-13-45"))).2)
    ∧ extract_dates (lit "2022-13-45") = ([], [lit "2022-13-45"]) :=
  C7_invalid_literals_returned (lit "2022-13-45") (by decide) (by rfl) (by decide)

/-- Counterexample to claim C5 as stated: the text
`average fares in Q2 2019 and 2022` names the different year 2019 (the
season/router year pattern matches it), yet the quarter still resolves to
the Q2 interval, because the code's guard only asks that `2022` occur or
that no year token occur at all. -/
theorem C5_quarter_counterexample :
    extract_dates (lit "average fares in Q2 2019 and 2022")
      = ([⟨2022, 4, 1⟩, ⟨2022, 7, 1⟩], [])
    ∧ isSub (lit "2019") (lower (lit "average fares in Q2 2019 and 2022")) = true
    ∧ hasYearNot2022 (lower (lit "average fares in Q2 2019 and 2022")) = true :=
  ⟨by rfl, by decide, by rfl⟩

/-- The quarter number captured by `Q_RE` is between 1 and 4. -/
theorem tryQ_bounds {prev : Option Nat} {l : Str} {q : Nat}
    (h : tryQ prev l = some q) : 1 ≤ q ∧ q ≤ 4 := by
  unfold tryQ at h
  split at h
  · split at h
    · rename_i hguard
      injection h with h2
      simp only [Bool.and_eq_true, decide_eq_true_eq] at hguard
      omega
    · exact Option.noConfusion h
  · exact Option.noConfusion h

theorem scanQAux_bounds : ∀ (t : Str) (prev : Option Nat) (q : Nat),
    scanQAux prev t = some q → 1 ≤ q ∧ q ≤ 4 := by
  intro t
  induction t with
  | nil => intro prev q h; exact Option.noConfusion h
  | cons c cs ih =>
    intro prev q h
    cases htq : tryQ prev (c :: cs) with
    | some r =>
      have he : scanQAux prev (c :: cs) = some r := by
        simp only [scanQAux, htq]
      rw [he] at h
      injection h with h2
      exact h2 ▸ tryQ_bounds htq
    | none =>
      have he : scanQAux prev (c :: cs) = scanQAux (some c) cs := by
        simp only [scanQAux, htq]
      rw [he] at h
      exact ih _ _ h

theorem scanQ_bounds {t : Str} {q : Nat} (h : scanQ t = some q) :
    1 ≤ q ∧ q ≤ 4 :=
  scanQAux_bounds t none q h

theorem rules_quarter_some {t : Str} {q : Nat} (h : scanQ t = some q) :
    rules_quarter t = quarter_hit t q := by
  unfold rules_quarter
  rw [h]

/-- Claim C5 (amended): for every input that reaches the quarter rule (the
ISO pass produced nothing, no whole-year phrase matched, and the
year-with-breakdown rule does not apply) and on whose lowered text `Q_RE`
finds quarter `q`: if the text contains the literal `2022` or contains no
explicit `20xx` year token at all, extraction resolves to the
3-calendar-month interval `[2022-(3q-2)-01, 2022-(3q+1)-01)` of the
supported year; if instead the text names a `20xx` year without containing
`2022`, the quarter rule does not fire and extraction falls through to the
season rule.  Scenario B and the different-year rejection are the concrete
instances. -/
theorem C5_quarter_resolution (t : Str) (q : Nat)
    (hiso : ¬(scanIso t ≠ []
      ∧ ((processIso (scanIso t)).1 ≠ [] ∨ (processIso (scanIso t)).2 ≠ [])))
    (hwhole : whole_year_phrases.any (fun p => isSub p (lower t)) = false)
    (hyear : isSub (lit "year") (lower t) = false
      ∨ year_breakdown_words.any (fun w => isSub w (lower t)) = false)
    (hq : scanQ (lower t) = some q) :
    (isSub (lit "2022") (lower t) = true ∨ has20xx (lower t) = false →
      extract_dates t
        = ([⟨2022, 3 * q - 2, 1⟩,
            if q ≤ 3 then ⟨2022, 3 * q + 1, 1⟩ else ⟨2023, 1, 1⟩], []))
    ∧ (isSub (lit "2022") (lower t) = false ∧ has20xx (lower t) = true →
      extract_dates t = rules_seasons (lower t))
    ∧ extract_dates (lit "average fares in Q2 2022")
        = ([⟨2022, 4, 1⟩, ⟨2022, 7, 1⟩], [])
    ∧ extract_dates (lit "average fares in q2 2019") = ([], []) := by
  obtain ⟨hb1, hb2⟩ := scanQ_bounds hq
  have hreach : extract_dates t = rules_quarter (lower t) := by
    unfold extract_dates
    rw [if_neg hiso]
    unfold textual_rules
    rw [if_neg (by simp [hwhole])]
    unfold rules_year_breakdown
    rcases hyear with hy | hy
    · rw [if_neg (by simp [hy])]
    · rw [if_neg (by simp [hy])]
  refine ⟨?_, ?_, by rfl, by rfl⟩
  · intro hguard
    rw [hreach, rules_quarter_some hq]
    unfold quarter_hit
    rw [if_pos (by rcases hguard with h | h <;> simp [h])]
    rw [show (q - 1) * 3 + 1 + 3 = 3 * q + 1 from by omega,
      show (q - 1) * 3 + 1 = 3 * q - 2 from by omega]
    by_cases hq3 : q ≤ 3
    · rw [if_pos (by omega : 3 * q + 1 ≤ 12), if_pos hq3]
    · rw [if_neg (by omega : ¬(3 * q + 1 ≤ 12)), if_neg hq3]
  · rintro ⟨h1, h2⟩
    rw [hreach, rules_quarter_some hq]
    unfold quarter_hit
    rw [if_neg (by simp [h1, h2])]

/-- Witness for C5 (amended) at Scenario B, q = 2. -/
theorem C5_quarter_resolution_witness :
    (isSub (lit "2022") (lower (lit "average fares in Q2 2022")) = true
        ∨ has20xx (lower (lit "average fares in Q2 2022")) = false →
      extract_dates (lit "average fares in Q2 2022")
        = ([⟨2022, 3 * 2 - 2, 1⟩,
            if 2 ≤ 3 then ⟨2022, 3 * 2 + 1, 1⟩ else ⟨2023, 1, 1⟩], []))
    ∧ (isSub (lit "2022") (lower (lit "average fares in Q2 2022")) = false
        ∧ has20xx (lower (lit "average fares in Q2 2022")) = true →
      extract_dates (lit "average fares in Q2 2022")
        = rules_seasons (lower (lit "average fares in Q2 2022")))
    ∧ extract_dates (lit "average fares in Q2 2022")
        = ([⟨2022, 4, 1⟩, ⟨2022, 7, 1⟩], [])
    ∧ extract_dates (lit "average fares in q2 2019") = ([], []) :=
  C5_quarter_resolution (lit "average fares in Q2 2022") 2
    (by decide) (by decide) (Or.inl (by decide)) (by decide)

/-- Counterexample to claim C9 as stated: `trips in 2030` contains the
explicit year token 2030 (not the supported year) and does not contain
`2022`, yet the router does not short-circuit to `dataset_match = false`;
its year pattern `20(1\d|2[0134-9])` only covers 2010-2029. -/
theorem C9_router_year_counterexample :
    heuristic_route (lit "trips in 2030") = ⟨lit "trip_frequency", true⟩
    ∧ isSub (lit "2030") (lit "trips in 2030") = true
    ∧ isSub (lit "2022") (lit "trips in 2030") = false :=
  ⟨by rfl, by decide, by decide⟩

/-- Claim C9 (amended): for every input whose lowered text matches the
router's out-of-scope year pattern (a year 2010-2029 other than 2022) and
does not contain `2022`, the router returns intent `unknown` with
`dataset_match = false`, regardless of any keyword matches; `trips in 2019`
is such an input, and an input matching no rule at all yields `unknown`
with `dataset_match = true`. -/
theorem C9_router_year_guard (u : Str)
    (h1 : hasYearNot2022 (lower u) = true)
    (h2 : isSub (lit "2022") (lower u) = false) :
    heuristic_route u = ⟨lit "unknown", false⟩
    ∧ heuristic_route (lit "trips in 2019") = ⟨lit "unknown", false⟩
    ∧ heuristic_route (lit "hello") = ⟨lit "unknown", true⟩ := by
  refine ⟨?_, by rfl, by rfl⟩
  unfold heuristic_route
  by_cases hc : ([lit "churn", lit "customer", lit "cohort", lit "retention",
      lit "subscription"].any (fun k => isSub k (lower u))) = true
  · rw [if_pos hc]
  · rw [if_neg hc, if_pos (by rw [h1, h2]; rfl)]

/-- Witness for C9 (amended) at `trips in 2019`. -/
theorem C9_router_year_guard_witness :
    heuristic_route (lit "trips in 2019") = ⟨lit "unknown", false⟩
    ∧ heuristic_route (lit "trips in 2019") = ⟨lit "unknown", false⟩
    ∧ heuristic_route (lit "hello") = ⟨lit "unknown", true⟩ :=
  C9_router_year_guard (lit "trips in 2019") (by rfl) (by decide)

/-- Claim C10: a calendar-valid ISO token whose year is neither the
supported year nor exactly 2023-01-01 is silently discarded by the ISO
pass (it reaches neither the date list nor the invalid-literal list), and
when the pass produced nothing at all, `extract_dates` falls through to
the textual rules. -/
theorem C10_offyear_iso_discarded (pre post : List (Str × Str × Str))
    (gy gm gd : Str) (text : Str)
    (hval : validDatetime (toNum gy) (toNum gm) (toNum gd) = true)
    (hy : toNum gy ≠ 2022)
    (hnotend : ¬(toNum gy = 2023 ∧ toNum gm = 1 ∧ toNum gd = 1))
    (ht1 : scanIso text ≠ [])
    (ht2 : (processIso (scanIso text)).1 = []
      ∧ (processIso (scanIso text)).2 = []) :
    processIso (pre ++ (gy, gm, gd) :: post) = processIso (pre ++ post)
    ∧ extract_dates text = textual_rules text := by
  constructor
  · induction pre with
    | nil =>
      simp only [List.nil_append]
      rw [show processIso ((gy, gm, gd) :: post)
          = if validDatetime (toNum gy) (toNum gm) (toNum gd) then
              if toNum gy == 2022 then
                (⟨toNum gy, toNum gm, toNum gd⟩ :: (processIso post).1,
                  (processIso post).2)
              else if toNum gy == 2023 && toNum gm == 1 && toNum gd == 1 then
                (⟨toNum gy, toNum gm, toNum gd⟩ :: (processIso post).1,
                  (processIso post).2)
              else processIso post
            else ((processIso post).1,
              (gy ++ ([45] ++ (gm ++ ([45] ++ gd)))) :: (processIso post).2)
          from rfl]
      rw [if_pos hval, if_neg (by simpa using hy),
        if_neg (by
          intro h
          simp only [Bool.and_eq_true, beq_iff_eq] at h
          exact hnotend ⟨h.1.1, h.1.2, h.2⟩)]
    | cons p ps ih =>
      obtain ⟨py, pm, pd⟩ := p
      simp only [List.cons_append, processIso, List.append_eq, ih]
  · unfold extract_dates
    rw [if_neg (by rintro ⟨-, h | h⟩; exacts [h ht2.1, h ht2.2])]

/-- Witness for C10: the valid off-year token `2019-05-01` is dropped, and
the same text falls through to the textual whole-year rule. -/
theorem C10_offyear_iso_discarded_witness :
    processIso ([] ++ (lit "2019", lit "05", lit "01") :: [])
      = processIso ([] ++ [])
    ∧ extract_dates (lit "2019-05-01 all year")
        = textual_rules (lit "2019-05-01 all year") :=
  C10_offyear_iso_discarded [] [] (lit "2019") (lit "05") (lit "01")
    (lit "2019-05-01 all year") (by rfl) (by decide) (by decide)
    (by decide) ⟨by rfl, by rfl⟩

/-! Slot normalisation, `symbiote_lite/slots.py`. -/

/-- The error message of `normalize_granularity`, naming the valid choices. -/
def choose_msg : Str := lit "Choose one: daily, weekly, monthly."

/-- The `dialy`-family misspelling rewrite of `normalize_granularity`. -/
def fix_daily (t : Str) : Str :=
  if t = lit "dialy" ∨ t = lit "daliy" ∨ t = lit "dailly" then lit "daily" else t

/-- The `wekly`-family misspelling rewrite. -/
def fix_weekly (t : Str) : Str :=
  if t = lit "wekly" ∨ t = lit "weekely" ∨ t = lit "weekley" then lit "weekly" else t

/-- The `montly`-family misspelling rewrite. -/
def fix_monthly (t : Str) : Str :=
  if t = lit "montly" ∨ t = lit "monthy" ∨ t = lit "monthyl" then lit "monthly" else t

/-- The shorthand and prefix dispatch of `normalize_granularity`, applied to
the misspelling-corrected first token. -/
def granularity_core (t : Str) : Except Str Str :=
  if t = lit "d" ∨ t = lit "day" ∨ t = lit "days" ∨ t = lit "daily" then
    .ok (lit "daily")
  else if t = lit "w" ∨ t = lit "week" ∨ t = lit "weeks" ∨ t = lit "weekly" then
    .ok (lit "weekly")
  else if t = lit "m" ∨ t = lit "month" ∨ t = lit "months" ∨ t = lit "monthly" then
    .ok (lit "monthly")
  else if isPre (lit "dai") t = true ∨ isPre (lit "day") t = true then
    .ok (lit "daily")
  else if isPre (lit "wee") t = true ∨ isPre (lit "wk") t = true then
    .ok (lit "weekly")
  else if isPre (lit "mon") t = true ∨ isPre (lit "mth") t = true then
    .ok (lit "monthly")
  else .error choose_msg

/-- `normalize_granularity` from slots.py: strip and lower the input,
reject the empty string, take the first whitespace-delimited token, apply
the misspelling table, then shorthand sets and prefix rules. -/
def normalize_granularity (value : Str) : Except Str Str :=
  if lower (trim value) = [] then .error choose_msg
  else granularity_core (fix_monthly (fix_weekly (fix_daily
    ((lower (trim value)).takeWhile (fun c => !isSpaceC c)))))

theorem granularity_core_ok {t r : Str} (h : granularity_core t = .ok r) :
    r = lit "daily" ∨ r = lit "weekly" ∨ r = lit "monthly" := by
  unfold granularity_core at h
  split at h
  · exact Or.inl (Except.ok.inj h).symm
  split at h
  · exact Or.inr (Or.inl (Except.ok.inj h).symm)
  split at h
  · exact Or.inr (Or.inr (Except.ok.inj h).symm)
  split at h
  · exact Or.inl (Except.ok.inj h).symm
  split at h
  · exact Or.inr (Or.inl (Except.ok.inj h).symm)
  split at h
  · exact Or.inr (Or.inr (Except.ok.inj h).symm)
  · exact Except.noConfusion h

theorem granularity_core_error {t m : Str} (h : granularity_core t = .error m) :
    m = choose_msg := by
  unfold granularity_core at h
  split at h
  · exact Except.noConfusion h
  split at h
  · exact Except.noConfusion h
  split at h
  · exact Except.noConfusion h
  split at h
  · exact Except.noConfusion h
  split at h
  · exact Except.noConfusion h
  split at h
  · exact Except.noConfusion h
  · exact (Except.error.inj h).symm

theorem normalize_granularity_error {v m : Str}
    (h : normalize_granularity v = .error m) : m = choose_msg := by
  unfold normalize_granularity at h
  split at h
  · exact (Except.error.inj h).symm
  · exact granularity_core_error h

/-- Claim C8: `normalize_granularity` is idempotent on success (every
successful result is one of the canonical fixed points daily, weekly,
monthly), and every failure carries the error naming the valid choices;
`yearly` is outside the vocabulary and is rejected. -/
theorem C8_normalize_granularity_idempotent (s r : Str)
    (h : normalize_granularity s = .ok r) :
    normalize_granularity r = .ok r
    ∧ (∀ v m, normalize_granularity v = .error m → m = choose_msg)
    ∧ normalize_granularity (lit "daily") = .ok (lit "daily")
    ∧ normalize_granularity (lit "weekly") = .ok (lit "weekly")
    ∧ normalize_granularity (lit "monthly") = .ok (lit "monthly")
    ∧ normalize_granularity (lit "yearly") = .error choose_msg := by
  refine ⟨?_, fun v m hv => normalize_granularity_error hv,
    by rfl, by rfl, by rfl, by rfl⟩
  have hr : r = lit "daily" ∨ r = lit "weekly" ∨ r = lit "monthly" := by
    unfold normalize_granularity at h
    split at h
    · exact Except.noConfusion h
    · exact granularity_core_ok h
  rcases hr with rfl | rfl | rfl
  · rfl
  · rfl
  · rfl

/-- Witness for C8 at the input `weekly`. -/
theorem C8_normalize_granularity_idempotent_witness :
    normalize_granularity (lit "weekly") = .ok (lit "weekly")
    ∧ (∀ v m, normalize_granularity v = .error m → m = choose_msg)
    ∧ normalize_granularity (lit "daily") = .ok (lit "daily")
    ∧ normalize_granularity (lit "weekly") = .ok (lit "weekly")
    ∧ normalize_granularity (lit "monthly") = .ok (lit "monthly")
    ∧ normalize_granularity (lit "yearly") = .error choose_msg :=
  C8_normalize_granularity_idempotent (lit "weekly") (lit "weekly") (by rfl)

/-! Date-range validation, `validate_range` in `symbiote_lite/dates.py`.
The source parses its two `YYYY-MM-DD` string arguments with
`datetime.strptime` and compares `datetime` values; here the function is
modelled after parsing, on the `Date` values themselves, with `ordD` as
the `datetime` comparison (they agree on valid dates). -/

def MIN_DATE : Date := ⟨2022, 1, 1⟩

def MAX_DATE : Date := ⟨2023, 1, 1⟩

/-- `validate_range` from dates.py: note `MIN_DATE <= s < MAX_DATE` for
the start but `MIN_DATE <= e <= MAX_DATE` for the end. -/
def validate_range (s e : Date) : Except Str Unit :=
  if ¬(ordD MIN_DATE ≤ ordD s ∧ ordD s < ordD MAX_DATE)
      ∨ ¬(ordD MIN_DATE ≤ ordD e ∧ ordD e ≤ ordD MAX_DATE) then
    .error (lit "Dates must be in 2022.")
  else if ordD e ≤ ordD s then
    .error (lit "end_date must be AFTER start_date (end_date is exclusive).")
  else .ok ()

/-- Counterexample to claim C6 as stated: with `end = 2023-01-01`, the end
date lies outside the half-open interval `[2022-01-01, 2023-01-01)` that
the claim requires for both dates, yet `validate_range` accepts the pair
(its end-date bound is inclusive). -/
theorem C6_range_counterexample :
    validate_range ⟨2022, 6, 1⟩ ⟨2023, 1, 1⟩ = .ok ()
    ∧ ¬(ordD (⟨2023, 1, 1⟩ : Date) < ordD MAX_DATE)
    ∧ ordD (⟨2022, 6, 1⟩ : Date) < ordD (⟨2023, 1, 1⟩ : Date) :=
  ⟨by rfl, by decide, by decide⟩

/-- Claim C6 (amended): `validate_range` raises exactly when
`end <= start`, or the start lies outside `[2022-01-01, 2023-01-01)`, or
the end lies outside `[2022-01-01, 2023-01-01]` — the end may equal the
exclusive upper bound `2023-01-01`. -/
theorem C6_validate_range_iff (s e : Date)
    (hs : ValidDate s) (he : ValidDate e) :
    (∃ msg, validate_range s e = .error msg)
      ↔ (ordD e ≤ ordD s
          ∨ ¬(ordD MIN_DATE ≤ ordD s ∧ ordD s < ordD MAX_DATE)
          ∨ ¬(ordD MIN_DATE ≤ ordD e ∧ ordD e ≤ ordD MAX_DATE)) := by
  unfold validate_range
  by_cases h1 : ¬(ordD MIN_DATE ≤ ordD s ∧ ordD s < ordD MAX_DATE)
      ∨ ¬(ordD MIN_DATE ≤ ordD e ∧ ordD e ≤ ordD MAX_DATE)
  · rw [if_pos h1]
    exact iff_of_true ⟨_, rfl⟩ (Or.inr h1)
  · rw [if_neg h1]
    by_cases h2 : ordD e ≤ ordD s
    · rw [if_pos h2]
      exact iff_of_true ⟨_, rfl⟩ (Or.inl h2)
    · rw [if_neg h2]
      apply iff_of_false
      · rintro ⟨msg, hmsg⟩
        exact Except.noConfusion hmsg
      · tauto

/-- Witness for C6 (amended) at the counterexample pair. -/
theorem C6_validate_range_iff_witness :
    (∃ msg, validate_range ⟨2022, 6, 1⟩ ⟨2023, 1, 1⟩ = .error msg)
      ↔ (ordD (⟨2023, 1, 1⟩ : Date) ≤ ordD (⟨2022, 6, 1⟩ : Date)
          ∨ ¬(ordD MIN_DATE ≤ ordD ⟨2022, 6, 1⟩
              ∧ ordD (⟨2022, 6, 1⟩ : Date) < ordD MAX_DATE)
          ∨ ¬(ordD MIN_DATE ≤ ordD ⟨2023, 1, 1⟩
              ∧ ordD (⟨2023, 1, 1⟩ : Date) ≤ ordD MAX_DATE)) :=
  C6_validate_range_iff ⟨2022, 6, 1⟩ ⟨2023, 1, 1⟩ (by decide) (by decide)

/-! Symbolic lemmas about the ISO and swap-notice scanners, used for
claim C4 (reversed explicit date pairs). -/

theorem scanIsoAux_nil (f : Nat) (p : Option Nat) : scanIsoAux f p [] = [] := by
  cases f <;> rfl

theorem scan2022Aux_nil (f : Nat) (p : Option Nat) : scan2022Aux f p [] = [] := by
  cases f <;> rfl

theorem tryIso_none {prev : Option Nat} {c : Nat} (cs : Str)
    (h : isDigitC c = false) : tryIso prev (c :: cs) = none := by
  unfold tryIso
  split
  · rename_i y1 y2 y3 y4 s1 m1 m2 s2 d1 d2 rest heq
    rw [if_neg]
    intro hguard
    injection heq with h1 h2
    subst h1
    simp [h] at hguard
  · rfl

theorem try2022_none {prev : Option Nat} {c : Nat} (cs : Str)
    (h : isDigitC c = false) : try2022 prev (c :: cs) = none := by
  have hc : c ≠ 50 := by
    intro hh
    subst hh
    simp [isDigitC] at h
  unfold try2022
  split
  · rename_i c1 c2 c3 c4 s1 m1 m2 s2 d1 d2 rest heq
    rw [if_neg]
    intro hguard
    injection heq with h1 h2
    subst h1
    simp [hc] at hguard
  · rfl

theorem lastPrev_cons_eq (prev : Option Nat) (c : Nat) (cs : Str) :
    lastPrev prev (c :: cs) = lastPrev (some c) cs := by
  cases cs with
  | nil => rfl
  | cons d ds =>
    unfold lastPrev
    rw [List.getLast?_cons_cons]
    cases hgl : (d :: ds).getLast? with
    | none => exact (List.cons_ne_nil d ds (by simpa using hgl)).elim
    | some x => rfl

theorem scanIsoAux_skip :
    ∀ (cl : Str), (∀ c ∈ cl, isDigitC c = false) →
      ∀ (fuel : Nat) (prev : Option Nat) (l : Str),
        scanIsoAux (cl.length + fuel) prev (cl ++ l)
          = scanIsoAux fuel (lastPrev prev cl) l := by
  intro cl
  induction cl with
  | nil =>
    intro _ fuel prev l
    simp only [List.length_nil, Nat.zero_add, List.nil_append]
    rfl
  | cons c cs ih =>
    intro hcl fuel prev l
    have hlen : (c :: cs).length + fuel = (cs.length + fuel) + 1 := by
      simp [List.length_cons]
      omega
    rw [hlen, List.cons_append]
    have htry : tryIso prev (c :: (cs ++ l)) = none :=
      tryIso_none _ (hcl c (List.mem_cons_self _ _))
    rw [show scanIsoAux ((cs.length + fuel) + 1) prev (c :: (cs ++ l))
        = scanIsoAux (cs.length + fuel) (some c) (cs ++ l) from by
      simp [scanIsoAux, htry]]
    rw [ih (fun d hd => hcl d (List.mem_cons_of_mem _ hd)) fuel (some c) l]
    rw [lastPrev_cons_eq]

theorem scan2022Aux_skip :
    ∀ (cl : Str), (∀ c ∈ cl, isDigitC c = false) →
      ∀ (fuel : Nat) (prev : Option Nat) (l : Str),
        scan2022Aux (cl.length + fuel) prev (cl ++ l)
          = scan2022Aux fuel (lastPrev prev cl) l := by
  intro cl
  induction cl with
  | nil =>
    intro _ fuel prev l
    simp only [List.length_nil, Nat.zero_add, List.nil_append]
    rfl
  | cons c cs ih =>
    intro hcl fuel prev l
    have hlen : (c :: cs).length + fuel = (cs.length + fuel) + 1 := by
      simp [List.length_cons]
      omega
    rw [hlen, List.cons_append]
    have htry : try2022 prev (c :: (cs ++ l)) = none :=
      try2022_none _ (hcl c (List.mem_cons_self _ _))
    rw [show scan2022Aux ((cs.length + fuel) + 1) prev (c :: (cs ++ l))
        = scan2022Aux (cs.length + fuel) (some c) (cs ++ l) from by
      simp [scan2022Aux, htry]]
    rw [ih (fun d hd => hcl d (List.mem_cons_of_mem _ hd)) fuel (some c) l]
    rw [lastPrev_cons_eq]

theorem scanIsoAux_match (fuel : Nat) (prev : Option Nat)
    (m1 m2 d1 d2 : Nat) (l : Str)
    (hm1 : isDigitC m1 = true) (hm2 : isDigitC m2 = true)
    (hd1 : isDigitC d1 = true) (hd2 : isDigitC d2 = true)
    (hprev : bndB prev = true) (hafter : bndA l = true) :
    scanIsoAux (fuel + 1) prev ([50, 48, 50, 50, 45, m1, m2, 45, d1, d2] ++ l)
      = ([50, 48, 50, 50], [m1, m2], [d1, d2]) :: scanIsoAux fuel (some d2) l := by
  have htry : tryIso prev (50 :: 48 :: 50 :: 50 :: 45 :: m1 :: m2 :: 45 :: d1 :: d2 :: l)
      = some ([50, 48, 50, 50], [m1, m2], [d1, d2]) := by
    simp only [tryIso]
    rw [if_pos (by rw [hprev, hm1, hm2, hd1, hd2, hafter]; rfl)]
  show scanIsoAux (fuel + 1) prev
      (50 :: 48 :: 50 :: 50 :: 45 :: m1 :: m2 :: 45 :: d1 :: d2 :: l) = _
  simp only [scanIsoAux, htry]
  rfl

theorem scan2022Aux_match (fuel : Nat) (prev : Option Nat)
    (m1 m2 d1 d2 : Nat) (l : Str)
    (hm1 : isDigitC m1 = true) (hm2 : isDigitC m2 = true)
    (hd1 : isDigitC d1 = true) (hd2 : isDigitC d2 = true)
    (hprev : bndB prev = true) (hafter : bndA l = true) :
    scan2022Aux (fuel + 1) prev ([50, 48, 50, 50, 45, m1, m2, 45, d1, d2] ++ l)
      = [50, 48, 50, 50, 45, m1, m2, 45, d1, d2]
          :: scan2022Aux fuel (some d2) l := by
  have htry : try2022 prev (50 :: 48 :: 50 :: 50 :: 45 :: m1 :: m2 :: 45 :: d1 :: d2 :: l)
      = some [50, 48, 50, 50, 45, m1, m2, 45, d1, d2] := by
    simp only [try2022]
    rw [if_pos (by rw [hprev, hm1, hm2, hd1, hd2, hafter]; rfl)]
  show scan2022Aux (fuel + 1) prev
      (50 :: 48 :: 50 :: 50 :: 45 :: m1 :: m2 :: 45 :: d1 :: d2 :: l) = _
  simp only [scan2022Aux, htry]
  rfl

theorem pad2_eq (m : Nat) (h : m < 100) :
    ∃ a b : Nat, pad 2 m = [a, b] ∧ isDigitC a = true ∧ isDigitC b = true
      ∧ toNum [a, b] = m := by
  by_cases h10 : m < 10
  · refine ⟨48, 48 + m, ?_, by simp [isDigitC], by simp [isDigitC]; omega, ?_⟩
    · unfold pad natDigits
      rw [show natDigitsAux (m + 1) m = [48 + m] from by simp [natDigitsAux, h10]]
      rfl
    · simp only [toNum, List.foldl]
      omega
  · refine ⟨48 + m / 10, 48 + m % 10, ?_, by simp [isDigitC]; omega,
      by simp [isDigitC]; omega, ?_⟩
    · unfold pad natDigits
      have e1 : natDigitsAux (m + 1) m
          = natDigitsAux m (m / 10) ++ [48 + m % 10] := by
        simp [natDigitsAux, h10]
      have e2 : natDigitsAux m (m / 10) = [48 + m / 10] := by
        obtain ⟨k, rfl⟩ : ∃ k, m = k + 1 := ⟨m - 1, by omega⟩
        simp only [natDigitsAux]
        rw [if_pos (by omega)]
      rw [e1, e2]
      rfl
    · simp only [toNum, List.foldl]
      omega

theorem validDatetime_bounds {y m d : Nat} (h : validDatetime y m d = true) :
    1 ≤ y ∧ y ≤ 9999 ∧ 1 ≤ m ∧ m ≤ 12 ∧ 1 ≤ d ∧ d ≤ 31 := by
  have hterm : daysInMonth y m ≤ 31 := by
    unfold daysInMonth
    split
    · split <;> omega
    · split <;> omega
  simp only [validDatetime, Bool.and_eq_true, decide_eq_true_eq] at h
  omega

theorem dateStr_2022 (dt : Date) (hy : dt.y = 2022) (hv : ValidDate dt) :
    ∃ m1 m2 d1 d2 : Nat,
      dateStr dt = [50, 48, 50, 50, 45, m1, m2, 45, d1, d2]
      ∧ isDigitC m1 = true ∧ isDigitC m2 = true
      ∧ isDigitC d1 = true ∧ isDigitC d2 = true
      ∧ toNum [m1, m2] = dt.m ∧ toNum [d1, d2] = dt.d := by
  have hb := validDatetime_bounds hv
  obtain ⟨a1, a2, hm, hma, hmb, hmt⟩ := pad2_eq dt.m (by omega)
  obtain ⟨b1, b2, hdd, hda, hdb, hdt⟩ := pad2_eq dt.d (by omega)
  refine ⟨a1, a2, b1, b2, ?_, hma, hmb, hda, hdb, hmt, hdt⟩
  unfold dateStr
  rw [hy, hm, hdd]
  rfl

/-! Free-text slot extraction, `extract_slots_from_text` in
`symbiote_lite/slots.py`. -/

/-- `datetime.strptime(lit, "%Y-%m-%d")` on a literal matched by the
swap-notice regex (such literals are always ten characters
`2022-MM-DD`; this models strptime on exactly that canonical shape,
returning `none` where strptime would raise `ValueError`). -/
def parseCanon (l : Str) : Option Date :=
  match l with
  | [y1, y2, y3, y4, s1, m1, m2, s2, d1, d2] =>
    if isDigitC y1 && isDigitC y2 && isDigitC y3 && isDigitC y4 && s1 == 45
        && isDigitC m1 && isDigitC m2 && s2 == 45 && isDigitC d1 && isDigitC d2
        && validDatetime (toNum [y1, y2, y3, y4]) (toNum [m1, m2]) (toNum [d1, d2])
    then some ⟨toNum [y1, y2, y3, y4], toNum [m1, m2], toNum [d1, d2]⟩
    else none
  | _ => none

theorem parseCanon_dateStr (dt : Date) (hy : dt.y = 2022) (hv : ValidDate dt) :
    parseCanon (dateStr dt) = some dt := by
  obtain ⟨dY, dM, dD⟩ := dt
  simp only at hy
  subst hy
  obtain ⟨m1, m2, d1, d2, hds, hm1, hm2, hd1, hd2, htm, htd⟩ :=
    dateStr_2022 ⟨2022, dM, dD⟩ rfl hv
  simp only at htm htd
  have hv' : validDatetime 2022 dM dD = true := hv
  rw [hds]
  simp only [parseCanon]
  rw [if_pos (by
    rw [hm1, hm2, hd1, hd2, htm, htd]
    simp [hv', isDigitC, toNum, List.foldl])]
  rw [htm, htd]
  rfl

/-- The conversation-state fields touched by `extract_slots_from_text`
(`reset_session` keys of slots.py; the underscore prefix of the
transient flags is dropped). -/
structure SState where
  intent : Option Str
  start_date : Option Date
  end_date : Option Date
  granularity : Option Str
  metric : Option Str
  limit : Option Int
  saw_invalid_iso_date : Bool
  invalid_dates : List Str
  dates_were_swapped : Bool
  swapped_from : Option Str
  swapped_to : Option Str
deriving Repr

/-- `reset_session` from slots.py (the fields modelled here). -/
def reset_session : SState :=
  ⟨none, none, none, none, none, none, false, [], false, none, none⟩

/-- The invalid-date bookkeeping step of `extract_slots_from_text`. -/
def slots_apply_invalid (s : SState) (invalid : List Str) : SState :=
  if invalid ≠ [] then
    { s with saw_invalid_iso_date := true, invalid_dates := invalid }
  else s

/-- The comparison-and-record part of the swap-notice step, applied to
the parse results of the first two matched literals. -/
def slots_swap_parsed (s : SState) (o0 o1 : Str) (p0 p1 : Option Date) : SState :=
  match p0, p1 with
  | some dt0, some dt1 =>
    if ordD dt1 < ordD dt0 then
      { s with dates_were_swapped := true, swapped_from := some o0,
               swapped_to := some o1 }
    else s
  | _, _ => s

/-- The swap-notice step applied to the list of matched literals. -/
def slots_swap_core (s : SState) (ordered : List Str) : SState :=
  match ordered with
  | o0 :: o1 :: _ => slots_swap_parsed s o0 o1 (parseCanon o0) (parseCanon o1)
  | _ => s

/-- The swap-notice step of `extract_slots_from_text`: find the
`\b2022-\d{2}-\d{2}\b` literals in the raw input; if the first two parse
and the first is strictly later, record the notice (a strptime failure
aborts the step silently, as the `except: pass` does). -/
def slots_apply_swap (s : SState) (u : Str) : SState :=
  slots_swap_core s (scan2022 u)

/-- The date-slot fill of `extract_slots_from_text`: `dates[0]` into an
empty `start_date`, `dates[1]` into an empty `end_date`. -/
def slots_apply_dates (s : SState) (dates : List Date) : SState :=
  match dates with
  | [] => s
  | [d0] => if s.start_date = none then { s with start_date := some d0 } else s
  | d0 :: d1 :: _ =>
    if s.start_date = none then
      if s.end_date = none then
        { s with start_date := some d0, end_date := some d1 }
      else { s with start_date := some d0 }
    else if s.end_date = none then { s with end_date := some d1 }
    else s

/-- The granularity cue scan of `extract_slots_from_text`. -/
def slots_apply_granularity (s : SState) (t : Str) : SState :=
  if s.granularity = none then
    if [lit "monthly", lit "by month", lit "per month"].any
        (fun w => isSub w t) then { s with granularity := some (lit "monthly") }
    else if [lit "weekly", lit "by week", lit "per week"].any
        (fun w => isSub w t) then { s with granularity := some (lit "weekly") }
    else if [lit "daily", lit "by day", lit "per day"].any
        (fun w => isSub w t) then { s with granularity := some (lit "daily") }
    else s
  else s

/-- The metric cue scan of `extract_slots_from_text`. -/
def slots_apply_metric (s : SState) (t : Str) : SState :=
  if s.metric = none then
    if [lit "total", lit "sum", lit "overall"].any
        (fun w => isSub w t) then { s with metric := some (lit "total") }
    else if [lit "avg", lit "average", lit "mean", lit "typical"].any
        (fun w => isSub w t) then { s with metric := some (lit "avg") }
    else s
  else s

/-- `extract_slots_from_text` from slots.py, as a function from the old
state to the new one: dates and invalid literals from `extract_dates`,
the swap notice, then date, granularity and metric slot fills. -/
def extract_slots_from_text (s0 : SState) (u : Str) : SState :=
  slots_apply_metric
    (slots_apply_granularity
      (slots_apply_dates
        (slots_apply_swap (slots_apply_invalid s0 (extract_dates u).2) u)
        (extract_dates u).1)
      (lower u))
    (lower u)

theorem slots_apply_granularity_frame (s : SState) (t : Str) :
    (slots_apply_granularity s t).dates_were_swapped = s.dates_were_swapped
    ∧ (slots_apply_granularity s t).swapped_from = s.swapped_from
    ∧ (slots_apply_granularity s t).swapped_to = s.swapped_to
    ∧ (slots_apply_granularity s t).start_date = s.start_date
    ∧ (slots_apply_granularity s t).end_date = s.end_date := by
  unfold slots_apply_granularity
  repeat' split
  all_goals exact ⟨rfl, rfl, rfl, rfl, rfl⟩

theorem slots_apply_metric_frame (s : SState) (t : Str) :
    (slots_apply_metric s t).dates_were_swapped = s.dates_were_swapped
    ∧ (slots_apply_metric s t).swapped_from = s.swapped_from
    ∧ (slots_apply_metric s t).swapped_to = s.swapped_to
    ∧ (slots_apply_metric s t).start_date = s.start_date
    ∧ (slots_apply_metric s t).end_date = s.end_date := by
  unfold slots_apply_metric
  repeat' split
  all_goals exact ⟨rfl, rfl, rfl, rfl, rfl⟩

/-- Claim C4: for valid 2022 dates `a < b` appearing in the input in
reverse order (`b` first, then `a`, with digit-free boundary text around
them), `extract_dates` returns the sorted pair `[a, b]` and
`extract_slots_from_text` records the swap notice with the original
literals (`swapped_from` the literal of `b`, `swapped_to` the literal of
`a`) and fills the date slots with the sorted pair; the scenario
`trips from 2022-05-10 to 2022-05-01` is the witness instance. -/
theorem C4_reversed_pair_swap_notice (pre mid : Str) (a b : Date) (txt : Str)
    (htxt : txt = pre ++ (dateStr b ++ (mid ++ dateStr a)))
    (hva : ValidDate a) (hvb : ValidDate b)
    (hya : a.y = 2022) (hyb : b.y = 2022)
    (hab : ordD a < ordD b)
    (hpreD : ∀ c ∈ pre, isDigitC c = false)
    (hmidD : ∀ c ∈ mid, isDigitC c = false)
    (hpreB : bndB (lastPrev none pre) = true)
    (hmidNE : mid ≠ [])
    (hmidA : bndA mid = true)
    (hmidL : ∃ c, mid.getLast? = some c ∧ isWordC c = false) :
    extract_dates txt = ([a, b], [])
    ∧ (extract_slots_from_text reset_session txt).dates_were_swapped = true
    ∧ (extract_slots_from_text reset_session txt).swapped_from = some (dateStr b)
    ∧ (extract_slots_from_text reset_session txt).swapped_to = some (dateStr a)
    ∧ (extract_slots_from_text reset_session txt).start_date = some a
    ∧ (extract_slots_from_text reset_session txt).end_date = some b := by
  subst htxt
  obtain ⟨aY, aM, aD⟩ := a
  obtain ⟨bY, bM, bD⟩ := b
  dsimp only at hya hyb
  subst hya
  subst hyb
  obtain ⟨mc, hmgl, hmcw⟩ := hmidL
  obtain ⟨mB1, mB2, dB1, dB2, hdsB, hmB1, hmB2, hdB1, hdB2, htmB, htdB⟩ :=
    dateStr_2022 ⟨2022, bM, bD⟩ rfl hvb
  obtain ⟨mA1, mA2, dA1, dA2, hdsA, hmA1, hmA2, hdA1, hdA2, htmA, htdA⟩ :=
    dateStr_2022 ⟨2022, aM, aD⟩ rfl hva
  dsimp only at htmB htdB htmA htdA
  have hlenB : (dateStr ⟨2022, bM, bD⟩).length = 10 := by rw [hdsB]; rfl
  have hlenA : (dateStr ⟨2022, aM, aD⟩).length = 10 := by rw [hdsA]; rfl
  have hbA1 : bndA (mid ++ dateStr ⟨2022, aM, aD⟩) = true := by
    cases mid with
    | nil => exact absurd rfl hmidNE
    | cons x xs => exact hmidA
  have hlp : lastPrev (some dB2) mid = some mc := by
    unfold lastPrev
    rw [hmgl]
  have hmcB : bndB (some mc) = true := by simp [bndB, hmcw]
  have hfuel : (pre ++ (dateStr ⟨2022, bM, bD⟩
      ++ (mid ++ dateStr ⟨2022, aM, aD⟩))).length
      = pre.length + ((mid.length + 19) + 1) := by
    simp [List.length_append, hlenB, hlenA]
    omega
  -- the ISO scan finds exactly the two dates
  have hscan : scanIso (pre ++ (dateStr ⟨2022, bM, bD⟩
      ++ (mid ++ dateStr ⟨2022, aM, aD⟩)))
      = [([50, 48, 50, 50], [mB1, mB2], [dB1, dB2]),
         ([50, 48, 50, 50], [mA1, mA2], [dA1, dA2])] := by
    unfold scanIso
    rw [hfuel]
    rw [scanIsoAux_skip pre hpreD ((mid.length + 19) + 1) none
      (dateStr ⟨2022, bM, bD⟩ ++ (mid ++ dateStr ⟨2022, aM, aD⟩))]
    rw [hdsB]
    rw [scanIsoAux_match (mid.length + 19) (lastPrev none pre) mB1 mB2 dB1 dB2
      (mid ++ dateStr ⟨2022, aM, aD⟩) hmB1 hmB2 hdB1 hdB2 hpreB hbA1]
    rw [scanIsoAux_skip mid hmidD 19 (some dB2) (dateStr ⟨2022, aM, aD⟩)]
    rw [hlp, hdsA]
    have hmatch2 := scanIsoAux_match 18 (some mc) mA1 mA2 dA1 dA2 []
      hmA1 hmA2 hdA1 hdA2 hmcB rfl
    rw [List.append_nil] at hmatch2
    rw [show (19 : Nat) = 18 + 1 from rfl, hmatch2, scanIsoAux_nil]
  -- the swap-notice scan finds the two literals
  have hscan22 : scan2022 (pre ++ (dateStr ⟨2022, bM, bD⟩
      ++ (mid ++ dateStr ⟨2022, aM, aD⟩)))
      = [dateStr ⟨2022, bM, bD⟩, dateStr ⟨2022, aM, aD⟩] := by
    unfold scan2022
    rw [hfuel]
    rw [scan2022Aux_skip pre hpreD ((mid.length + 19) + 1) none
      (dateStr ⟨2022, bM, bD⟩ ++ (mid ++ dateStr ⟨2022, aM, aD⟩))]
    rw [hdsB]
    rw [scan2022Aux_match (mid.length + 19) (lastPrev none pre) mB1 mB2 dB1 dB2
      (mid ++ dateStr ⟨2022, aM, aD⟩) hmB1 hmB2 hdB1 hdB2 hpreB hbA1]
    rw [scan2022Aux_skip mid hmidD 19 (some dB2) (dateStr ⟨2022, aM, aD⟩)]
    rw [hlp, hdsA]
    have hmatch2 := scan2022Aux_match 18 (some mc) mA1 mA2 dA1 dA2 []
      hmA1 hmA2 hdA1 hdA2 hmcB rfl
    rw [List.append_nil] at hmatch2
    rw [show (19 : Nat) = 18 + 1 from rfl, hmatch2, scan2022Aux_nil]
  -- the ISO pass keeps both dates
  have hvb' : validDatetime 2022 bM bD = true := hvb
  have hva' : validDatetime 2022 aM aD = true := hva
  have hproc : processIso [([50, 48, 50, 50], [mB1, mB2], [dB1, dB2]),
      ([50, 48, 50, 50], [mA1, mA2], [dA1, dA2])]
      = ([⟨2022, bM, bD⟩, ⟨2022, aM, aD⟩], []) := by
    have h2022 : toNum [50, 48, 50, 50] = 2022 := rfl
    simp [processIso, htmB, htdB, htmA, htdA, h2022, hvb', hva']
  have hsort : sortD [(⟨2022, bM, bD⟩ : Date), ⟨2022, aM, aD⟩]
      = [⟨2022, aM, aD⟩, ⟨2022, bM, bD⟩] := by
    simp only [sortD, List.foldr, insertD]
    rw [if_neg (by omega)]
  have hED : extract_dates (pre ++ (dateStr ⟨2022, bM, bD⟩
      ++ (mid ++ dateStr ⟨2022, aM, aD⟩)))
      = ([⟨2022, aM, aD⟩, ⟨2022, bM, bD⟩], []) := by
    unfold extract_dates
    rw [hscan, hproc]
    rw [if_pos ⟨by simp, Or.inl (by simp)⟩]
    simp [hsort]
  -- the slot-extraction state
  have hpcB : parseCanon (dateStr ⟨2022, bM, bD⟩) = some ⟨2022, bM, bD⟩ :=
    parseCanon_dateStr _ rfl hvb
  have hpcA : parseCanon (dateStr ⟨2022, aM, aD⟩) = some ⟨2022, aM, aD⟩ :=
    parseCanon_dateStr _ rfl hva
  have hswapstate : slots_apply_swap reset_session (pre ++ (dateStr ⟨2022, bM, bD⟩
      ++ (mid ++ dateStr ⟨2022, aM, aD⟩)))
      = { reset_session with
          dates_were_swapped := true
          swapped_from := some (dateStr ⟨2022, bM, bD⟩)
          swapped_to := some (dateStr ⟨2022, aM, aD⟩) } := by
    unfold slots_apply_swap
    rw [hscan22]
    rw [show slots_swap_core reset_session
        [dateStr ⟨2022, bM, bD⟩, dateStr ⟨2022, aM, aD⟩]
        = slots_swap_parsed reset_session (dateStr ⟨2022, bM, bD⟩)
            (dateStr ⟨2022, aM, aD⟩) (parseCanon (dateStr ⟨2022, bM, bD⟩))
            (parseCanon (dateStr ⟨2022, aM, aD⟩)) from rfl]
    rw [hpcB, hpcA]
    rw [show slots_swap_parsed reset_session (dateStr ⟨2022, bM, bD⟩)
        (dateStr ⟨2022, aM, aD⟩) (some ⟨2022, bM, bD⟩) (some ⟨2022, aM, aD⟩)
        = if ordD (⟨2022, aM, aD⟩ : Date) < ordD (⟨2022, bM, bD⟩ : Date) then
            { reset_session with
              dates_were_swapped := true
              swapped_from := some (dateStr ⟨2022, bM, bD⟩)
              swapped_to := some (dateStr ⟨2022, aM, aD⟩) }
          else reset_session from rfl]
    rw [if_pos hab]
  have hslots : slots_apply_dates (slots_apply_swap (slots_apply_invalid
        reset_session (extract_dates (pre ++ (dateStr ⟨2022, bM, bD⟩
          ++ (mid ++ dateStr ⟨2022, aM, aD⟩)))).2)
        (pre ++ (dateStr ⟨2022, bM, bD⟩ ++ (mid ++ dateStr ⟨2022, aM, aD⟩))))
      (extract_dates (pre ++ (dateStr ⟨2022, bM, bD⟩
        ++ (mid ++ dateStr ⟨2022, aM, aD⟩)))).1
      = ⟨none, some ⟨2022, aM, aD⟩, some ⟨2022, bM, bD⟩, none, none, none,
          false, [], true, some (dateStr ⟨2022, bM, bD⟩),
          some (dateStr ⟨2022, aM, aD⟩)⟩ := by
    rw [hED]
    show slots_apply_dates (slots_apply_swap (slots_apply_invalid
        reset_session []) (pre ++ (dateStr ⟨2022, bM, bD⟩
        ++ (mid ++ dateStr ⟨2022, aM, aD⟩))))
      [⟨2022, aM, aD⟩, ⟨2022, bM, bD⟩] = _
    rw [show slots_apply_invalid reset_session [] = reset_session from rfl]
    rw [hswapstate]
    rfl
  have hfull : extract_slots_from_text reset_session (pre
        ++ (dateStr ⟨2022, bM, bD⟩ ++ (mid ++ dateStr ⟨2022, aM, aD⟩)))
      = slots_apply_metric (slots_apply_granularity
          ⟨none, some ⟨2022, aM, aD⟩, some ⟨2022, bM, bD⟩, none, none, none,
            false, [], true, some (dateStr ⟨2022, bM, bD⟩),
            some (dateStr ⟨2022, aM, aD⟩)⟩
          (lower (pre ++ (dateStr ⟨2022, bM, bD⟩
            ++ (mid ++ dateStr ⟨2022, aM, aD⟩)))))
        (lower (pre ++ (dateStr ⟨2022, bM, bD⟩
          ++ (mid ++ dateStr ⟨2022, aM, aD⟩)))) := by
    unfold extract_slots_from_text
    rw [hslots]
  refine ⟨hED, ?_, ?_, ?_, ?_, ?_⟩
  · rw [hfull]
    exact (slots_apply_metric_frame _ _).1.trans
      (slots_apply_granularity_frame _ _).1
  · rw [hfull]
    exact (slots_apply_metric_frame _ _).2.1.trans
      (slots_apply_granularity_frame _ _).2.1
  · rw [hfull]
    exact (slots_apply_metric_frame _ _).2.2.1.trans
      (slots_apply_granularity_frame _ _).2.2.1
  · rw [hfull]
    exact (slots_apply_metric_frame _ _).2.2.2.1.trans
      (slots_apply_granularity_frame _ _).2.2.2.1
  · rw [hfull]
    exact (slots_apply_metric_frame _ _).2.2.2.2.trans
      (slots_apply_granularity_frame _ _).2.2.2.2

/-- Witness for C4 at scenario C, `trips from 2022-05-10 to 2022-05-01`. -/
theorem C4_reversed_pair_swap_notice_witness :
    extract_dates (lit "trips from 2022-05-10 to 2022-05-01")
      = ([⟨2022, 5, 1⟩, ⟨2022, 5, 10⟩], [])
    ∧ (extract_slots_from_text reset_session
        (lit "trips from 2022-05-10 to 2022-05-01")).dates_were_swapped = true
    ∧ (extract_slots_from_text reset_session
        (lit "trips from 2022-05-10 to 2022-05-01")).swapped_from
        = some (dateStr ⟨2022, 5, 10⟩)
    ∧ (extract_slots_from_text reset_session
        (lit "trips from 2022-05-10 to 2022-05-01")).swapped_to
        = some (dateStr ⟨2022, 5, 1⟩)
    ∧ (extract_slots_from_text reset_session
        (lit "trips from 2022-05-10 to 2022-05-01")).start_date
        = some ⟨2022, 5, 1⟩
    ∧ (extract_slots_from_text reset_session
        (lit "trips from 2022-05-10 to 2022-05-01")).end_date
        = some ⟨2022, 5, 10⟩ :=
  C4_reversed_pair_swap_notice (lit "trips from ") (lit " to ")
    ⟨2022, 5, 1⟩ ⟨2022, 5, 10⟩ (lit "trips from 2022-05-10 to 2022-05-01")
    (by decide) (by decide) (by decide) rfl rfl (by decide) (by decide)
    (by decide) (by decide) (by decide) (by decide) ⟨32, by decide, by decide⟩
